import Mathlib

/-!
Shallow embedding of the SNP certificate module
(src/native/dev_snp_nif/sev/src/certs/snp/cert.rs).

The module wraps one parsed X509 value in a Certificate, classifies raw
byte buffers as PEM or DER by comparing the first 27 bytes against the
ASCII literal marking the start of a PEM certificate, dispatches
construction accordingly, and decides whether one certificate signs
another by delegating to the external cryptographic library.

The external X509 library (openssl) and the crate error module are not
part of this repository core: the library is modelled abstractly as a
record of operations over an abstract carrier type, and the error
taxonomy is modelled from the spec.  Byte buffers are lists of Nat
(each entry a byte value).  A Rust panic (out-of-bounds index) is
modelled by returning none from an Option-valued embedding.
-/

/-- CertFormat: closed enumeration of the two wire encodings. -/
inductive CertFormat
  | Pem
  | Der
deriving DecidableEq, Repr

/-- Modelled from the spec: the crate error module (crate::error) is not
under src/.  CertFormatError is the dedicated error for parsing a format
name; the source names its variant UnknownFormat. -/
inductive CertFormatError
  | UnknownFormat
deriving DecidableEq, Repr

/-- Modelled from the spec: the error taxonomy of section 7 (decode
errors, key-extraction errors, verification-failure errors) carried by
the Result type of the crate, whose error module is not under src/. -/
inductive Err
  | decode
  | keyExtraction
  | verificationFailure
deriving DecidableEq, Repr

/-- Display for CertFormat: the canonical lowercase string, as written
by the fmt::Display implementation in the source. -/
def CertFormat.display : CertFormat → String
  | CertFormat.Pem => "pem"
  | CertFormat.Der => "der"

/-- FromStr for CertFormat, as in the source: "pem" and "der" parse,
anything else is CertFormatError::UnknownFormat. -/
def CertFormat.from_str (s : String) : Except CertFormatError CertFormat :=
  if s = "pem" then Except.ok CertFormat.Pem
  else if s = "der" then Except.ok CertFormat.Der
  else Except.error CertFormatError.UnknownFormat

/-- The 27-byte ASCII literal b"-----BEGIN CERTIFICATE-----" from
identify_format. -/
def PEM_START : List Nat := "-----BEGIN CERTIFICATE-----".data.map Char.toNat

/-- Certificate::identify_format: matches the slice bytes[0..27] against
PEM_START; a non-PEM prefix is classified Der.  The Rust slice
expression panics when the buffer holds fewer than 27 bytes; the panic
is modelled as none. -/
def identify_format (bytes : List Nat) : Option CertFormat :=
  if 27 ≤ bytes.length then
    if bytes.take 27 = PEM_START then some CertFormat.Pem
    else some CertFormat.Der
  else none

/-- Abstract model of the external X509 library surface used by the
source: PEM and DER decode and encode, public-key extraction, and
signature verification.  α is the carrier of parsed X509 values, κ the
carrier of public keys. -/
structure X509Lib (α κ : Type) where
  from_pem : List Nat → Except Err α
  from_der : List Nat → Except Err α
  to_pem : α → Except Err (List Nat)
  to_der : α → Except Err (List Nat)
  public_key : α → Except Err κ
  verify : α → κ → Except Err Bool

/-- Certificate: an opaque holder of one parsed X509 value, as the
newtype struct Certificate(X509) in the source. -/
structure Certificate (α : Type) where
  x509 : α
deriving DecidableEq

variable {α κ : Type}

/-- Certificate::from_pem: Ok(Self(X509::from_pem(pem)?)). -/
def Certificate.from_pem (lib : X509Lib α κ) (pem : List Nat) :
    Except Err (Certificate α) :=
  match lib.from_pem pem with
  | Except.ok x => Except.ok (Certificate.mk x)
  | Except.error e => Except.error e

/-- Certificate::from_der: Ok(Self(X509::from_der(der)?)). -/
def Certificate.from_der (lib : X509Lib α κ) (der : List Nat) :
    Except Err (Certificate α) :=
  match lib.from_der der with
  | Except.ok x => Except.ok (Certificate.mk x)
  | Except.error e => Except.error e

/-- Certificate::to_pem: Ok(self.0.to_pem()?). -/
def Certificate.to_pem (lib : X509Lib α κ) (self : Certificate α) :
    Except Err (List Nat) :=
  match lib.to_pem self.x509 with
  | Except.ok b => Except.ok b
  | Except.error e => Except.error e

/-- Certificate::to_der: Ok(self.0.to_der()?). -/
def Certificate.to_der (lib : X509Lib α κ) (self : Certificate α) :
    Except Err (List Nat) :=
  match lib.to_der self.x509 with
  | Except.ok b => Except.ok b
  | Except.error e => Except.error e

/-- Certificate::public_key: Ok(self.0.public_key()?). -/
def Certificate.public_key (lib : X509Lib α κ) (self : Certificate α) :
    Except Err κ :=
  match lib.public_key self.x509 with
  | Except.ok k => Except.ok k
  | Except.error e => Except.error e

/-- Certificate::from_bytes: dispatches on identify_format.  The panic
of identify_format on a short buffer propagates, hence the Option. -/
def Certificate.from_bytes (lib : X509Lib α κ) (raw_bytes : List Nat) :
    Option (Except Err (Certificate α)) :=
  match identify_format raw_bytes with
  | some CertFormat.Pem => some (Certificate.from_pem lib raw_bytes)
  | some CertFormat.Der => some (Certificate.from_der lib raw_bytes)
  | none => none

/-- From(&lsqb;X509&rsqb;) for Certificate: value[0].clone().into().
Indexing 0 on an empty slice panics, modelled as none; every later
element of the slice is discarded. -/
def Certificate.fromX509Slice (value : List α) : Option (Certificate α) :=
  match value with
  | [] => none
  | x :: _ => some (Certificate.mk x)

/-- Verifiable for (&Certificate, &Certificate): extract the signer
public key, ask the library whether the signee signature validates under
it, and turn a false answer into a dedicated verification-failure
error. -/
def verifyPair (lib : X509Lib α κ) (self : Certificate α × Certificate α) :
    Except Err Unit :=
  match lib.public_key self.fst.x509 with
  | Except.error e => Except.error e
  | Except.ok key =>
    match lib.verify self.snd.x509 key with
    | Except.error e => Except.error e
    | Except.ok true => Except.ok ()
    | Except.ok false => Except.error Err.verificationFailure

/-- A small concrete instance of the external library model, used to
exercise the theorems on concrete inputs.  Parsed values and keys are
Nat; a PEM encoding of x is the singleton [x] and a DER encoding is
[x, 0]; a key signs exactly the value it equals. -/
def toyLib : X509Lib Nat Nat where
  from_pem := fun b =>
    match b with
    | [n] => Except.ok n
    | _ => Except.error Err.decode
  from_der := fun b =>
    match b with
    | [n, 0] => Except.ok n
    | _ => Except.error Err.decode
  to_pem := fun x => Except.ok [x]
  to_der := fun x => Except.ok [x, 0]
  public_key := fun x => Except.ok x
  verify := fun x k => Except.ok (x == k)

/-- A variant of toyLib whose key extraction always fails. -/
def toyLibNoKey : X509Lib Nat Nat :=
  { toyLib with public_key := fun _ => Except.error Err.keyExtraction }

/-- Claim C1 (code behavior): for every buffer shorter than 27 bytes the
slice expression bytes[0..27] in identify_format is out of bounds and
the function panics, modelled as returning none, instead of producing
the defined CertFormat result or defined error that the hardened policy
of the spec requires. -/
theorem C1_identify_format_short_input_panics (bytes : List Nat)
    (h : bytes.length < 27) : identify_format bytes = none := by
  unfold identify_format
  rw [if_neg (by omega)]

/-- Witness for C1 at the 26-byte buffer from the spec scenario, the
PEM marker one dash short. -/
theorem C1_identify_format_short_input_panics_witness :
    identify_format ("-----BEGIN CERTIFICATE---".data.map Char.toNat) = none :=
  C1_identify_format_short_input_panics _ (by decide)

/-- Claim C3: on every buffer of at least 27 bytes, identify_format
returns Pem exactly when the first 27 bytes equal the ASCII literal
-----BEGIN CERTIFICATE-----, and returns Der on every other such
buffer. -/
theorem C3_identify_format_long_input (bytes : List Nat)
    (h : 27 ≤ bytes.length) :
    (identify_format bytes = some CertFormat.Pem ↔
      bytes.take 27 = PEM_START) ∧
    (bytes.take 27 ≠ PEM_START →
      identify_format bytes = some CertFormat.Der) := by
  unfold identify_format
  rw [if_pos h]
  refine ⟨⟨fun hp => ?_, fun he => by rw [if_pos he]⟩,
    fun hne => by rw [if_neg hne]⟩
  by_contra hne
  rw [if_neg hne] at hp
  exact CertFormat.noConfusion (Option.some.inj hp)

/-- Witness for C3: the PEM marker itself is 27 bytes and is classified
Pem; 27 zero bytes are classified Der. -/
theorem C3_identify_format_long_input_witness :
    identify_format PEM_START = some CertFormat.Pem ∧
    identify_format (List.replicate 27 0) = some CertFormat.Der :=
  ⟨(C3_identify_format_long_input PEM_START (by decide)).1.mpr (by decide),
   (C3_identify_format_long_input (List.replicate 27 0) (by decide)).2
     (by decide)⟩

/-- Claim C7: CertFormat parsing maps "pem" to Pem and "der" to Der,
fails with the dedicated UnknownFormat error on every other string, and
round-trips with the canonical display. -/
theorem C7_certformat_from_str_contract :
    CertFormat.from_str "pem" = Except.ok CertFormat.Pem ∧
    CertFormat.from_str "der" = Except.ok CertFormat.Der ∧
    (∀ s : String, s ≠ "pem" → s ≠ "der" →
      CertFormat.from_str s = Except.error CertFormatError.UnknownFormat) ∧
    (∀ f : CertFormat, CertFormat.from_str (CertFormat.display f) =
      Except.ok f) := by
  refine ⟨rfl, rfl, fun s h1 h2 => ?_, fun f => ?_⟩
  · unfold CertFormat.from_str
    rw [if_neg h1, if_neg h2]
  · cases f <;> rfl

/-- Witness for C7: an unrecognized string fails with UnknownFormat and
the display of Pem parses back to Pem. -/
theorem C7_certformat_from_str_contract_witness :
    CertFormat.from_str "PEM" = Except.error CertFormatError.UnknownFormat ∧
    CertFormat.from_str (CertFormat.display CertFormat.Pem) =
      Except.ok CertFormat.Pem :=
  ⟨C7_certformat_from_str_contract.2.2.1 "PEM" (by decide) (by decide),
   C7_certformat_from_str_contract.2.2.2 CertFormat.Pem⟩

/-- Claim C10: the slice-to-Certificate conversion yields the wrapper of
the first element on every non-empty slice, discarding the rest, and is
undefined (out-of-bounds index, modelled none) on the empty slice. -/
theorem C10_fromX509Slice_first_element (l : List α) :
    (l = [] → Certificate.fromX509Slice l = none) ∧
    (∀ x xs, l = x :: xs →
      Certificate.fromX509Slice l = some (Certificate.mk x)) := by
  refine ⟨fun h => ?_, fun x xs h => ?_⟩ <;> subst h <;> rfl

/-- Witness for C10: the empty slice has no result; a two-element slice
yields the first element and drops the second. -/
theorem C10_fromX509Slice_first_element_witness :
    Certificate.fromX509Slice ([] : List Nat) = none ∧
    Certificate.fromX509Slice [3, 4] = some (Certificate.mk 3) :=
  ⟨(C10_fromX509Slice_first_element ([] : List Nat)).1 rfl,
   (C10_fromX509Slice_first_element [3, 4]).2 3 [4] rfl⟩

theorem toyLib_pem_roundtrip (x : Nat) (b : List Nat)
    (h : toyLib.to_pem x = Except.ok b) : toyLib.from_pem b = Except.ok x := by
  simp only [toyLib, Except.ok.injEq] at h
  subst h
  rfl

theorem toyLib_der_roundtrip (x : Nat) (b : List Nat)
    (h : toyLib.to_der x = Except.ok b) : toyLib.from_der b = Except.ok x := by
  simp only [toyLib, Except.ok.injEq] at h
  subst h
  rfl

/-- Claim C2: verify succeeds exactly when the library reports the
signee signature valid under the signer key; a false signature check
yields the dedicated verification-failure error, which is distinct from
a decode error; and a failed key extraction propagates that error. -/
theorem C2_verify_contract (lib : X509Lib α κ) (s e : Certificate α) :
    (verifyPair lib (s, e) = Except.ok () ↔
      ∃ k, lib.public_key s.x509 = Except.ok k ∧
        lib.verify e.x509 k = Except.ok true) ∧
    (∀ k, lib.public_key s.x509 = Except.ok k →
      lib.verify e.x509 k = Except.ok false →
      verifyPair lib (s, e) = Except.error Err.verificationFailure ∧
        Err.verificationFailure ≠ Err.decode) ∧
    (∀ er, lib.public_key s.x509 = Except.error er →
      verifyPair lib (s, e) = Except.error er) := by
  refine ⟨⟨fun h => ?_, fun h => ?_⟩, fun k hk hv => ?_, fun er her => ?_⟩
  · cases hk : lib.public_key s.x509 with
    | error e2 => simp [verifyPair, hk] at h
    | ok k =>
      cases hv : lib.verify e.x509 k with
      | error e2 => simp [verifyPair, hk, hv] at h
      | ok b =>
        cases b with
        | true => exact ⟨k, rfl, hv⟩
        | false => simp [verifyPair, hk, hv] at h
  · obtain ⟨k, hk, hv⟩ := h
    simp [verifyPair, hk, hv]
  · exact ⟨by simp [verifyPair, hk, hv], by decide⟩
  · simp [verifyPair, her]

/-- Witness for C2 on the toy library: key 3 does not sign value 4, so
verification fails with the dedicated error; key 3 signs value 3, so
the pair verifies; and the no-key library propagates its key-extraction
error. -/
theorem C2_verify_contract_witness :
    (verifyPair toyLib (Certificate.mk 3, Certificate.mk 4) =
      Except.error Err.verificationFailure ∧
      Err.verificationFailure ≠ Err.decode) ∧
    verifyPair toyLib (Certificate.mk 3, Certificate.mk 3) = Except.ok () ∧
    verifyPair toyLibNoKey (Certificate.mk 3, Certificate.mk 4) =
      Except.error Err.keyExtraction :=
  ⟨(C2_verify_contract toyLib (Certificate.mk 3) (Certificate.mk 4)).2.1
      3 rfl rfl,
   (C2_verify_contract toyLib (Certificate.mk 3) (Certificate.mk 3)).1.mpr
      ⟨3, rfl, rfl⟩,
   (C2_verify_contract toyLibNoKey (Certificate.mk 3)
      (Certificate.mk 4)).2.2 Err.keyExtraction rfl⟩

/-- Claim C4: from_bytes dispatches exactly to from_pem on every buffer
the detector classifies Pem and to from_der on every buffer it
classifies Der, producing the very same result, success or error. -/
theorem C4_from_bytes_dispatch (lib : X509Lib α κ) (raw : List Nat) :
    (identify_format raw = some CertFormat.Pem →
      Certificate.from_bytes lib raw = some (Certificate.from_pem lib raw)) ∧
    (identify_format raw = some CertFormat.Der →
      Certificate.from_bytes lib raw = some (Certificate.from_der lib raw)) := by
  refine ⟨fun h => ?_, fun h => ?_⟩ <;> unfold Certificate.from_bytes <;>
    rw [h]

/-- Witness for C4: the PEM marker buffer dispatches to from_pem and a
27-zero buffer dispatches to from_der, in both cases equal to the direct
call. -/
theorem C4_from_bytes_dispatch_witness :
    Certificate.from_bytes toyLib PEM_START =
      some (Certificate.from_pem toyLib PEM_START) ∧
    Certificate.from_bytes toyLib (List.replicate 27 0) =
      some (Certificate.from_der toyLib (List.replicate 27 0)) :=
  ⟨(C4_from_bytes_dispatch toyLib PEM_START).1 (by decide),
   (C4_from_bytes_dispatch toyLib (List.replicate 27 0)).2 (by decide)⟩

/-- Claim C5: from_pem and from_der return a Certificate exactly when
the library parse succeeds, wrapping the parsed value, and every parse
failure surfaces as the same error, so no Certificate arises from a
failed parse. -/
theorem C5_certificate_construction_invariant (lib : X509Lib α κ)
    (bytes : List Nat) :
    (∀ c, Certificate.from_pem lib bytes = Except.ok c ↔
      lib.from_pem bytes = Except.ok c.x509) ∧
    (∀ e, Certificate.from_pem lib bytes = Except.error e ↔
      lib.from_pem bytes = Except.error e) ∧
    (∀ c, Certificate.from_der lib bytes = Except.ok c ↔
      lib.from_der bytes = Except.ok c.x509) ∧
    (∀ e, Certificate.from_der lib bytes = Except.error e ↔
      lib.from_der bytes = Except.error e) := by
  refine ⟨fun c => ?_, fun e => ?_, fun c => ?_, fun e => ?_⟩
  · obtain ⟨y⟩ := c
    cases h : lib.from_pem bytes <;> simp [Certificate.from_pem, h]
  · cases h : lib.from_pem bytes <;> simp [Certificate.from_pem, h]
  · obtain ⟨y⟩ := c
    cases h : lib.from_der bytes <;> simp [Certificate.from_der, h]
  · cases h : lib.from_der bytes <;> simp [Certificate.from_der, h]

/-- Witness for C5 on the toy library: the PEM buffer [9] parses to the
wrapped value 9, and the malformed buffer [9, 9, 9] yields the decode
error, never a Certificate. -/
theorem C5_certificate_construction_invariant_witness :
    Certificate.from_pem toyLib [9] = Except.ok (Certificate.mk 9) ∧
    Certificate.from_pem toyLib [9, 9, 9] = Except.error Err.decode :=
  ⟨((C5_certificate_construction_invariant toyLib [9]).1
      (Certificate.mk 9)).mpr rfl,
   ((C5_certificate_construction_invariant toyLib [9, 9, 9]).2.1
      Err.decode).mpr rfl⟩

/-- Claim C6: the source delegates encoding and decoding to the external
library, so whenever that library satisfies the encode-decode round-trip
law, every Certificate obtained from a successful from_pem is recovered
unchanged by parsing its own to_pem output, and likewise for DER. -/
theorem C6_certificate_roundtrip (lib : X509Lib α κ)
    (hpem : ∀ x b, lib.to_pem x = Except.ok b →
      lib.from_pem b = Except.ok x)
    (hder : ∀ x b, lib.to_der x = Except.ok b →
      lib.from_der b = Except.ok x)
    (bytesP bytesD : List Nat) (c d : Certificate α) :
    (Certificate.from_pem lib bytesP = Except.ok c →
      ∀ pb, Certificate.to_pem lib c = Except.ok pb →
        Certificate.from_pem lib pb = Except.ok c) ∧
    (Certificate.from_der lib bytesD = Except.ok d →
      ∀ db, Certificate.to_der lib d = Except.ok db →
        Certificate.from_der lib db = Except.ok d) := by
  refine ⟨fun _ pb hpb => ?_, fun _ db hdb => ?_⟩
  · have h1 : lib.to_pem c.x509 = Except.ok pb := by
      cases h : lib.to_pem c.x509 with
      | error e2 => simp [Certificate.to_pem, h] at hpb
      | ok b2 => simpa [Certificate.to_pem, h] using hpb
    have h2 := hpem c.x509 pb h1
    obtain ⟨y⟩ := c
    simp [Certificate.from_pem, h2]
  · have h1 : lib.to_der d.x509 = Except.ok db := by
      cases h : lib.to_der d.x509 with
      | error e2 => simp [Certificate.to_der, h] at hdb
      | ok b2 => simpa [Certificate.to_der, h] using hdb
    have h2 := hder d.x509 db h1
    obtain ⟨y⟩ := d
    simp [Certificate.from_der, h2]

/-- Witness for C6 on the toy library, which satisfies the round-trip
law: the certificate parsed from the PEM buffer [5] reparses from its
own serialization, and likewise for the DER buffer [7, 0]. -/
theorem C6_certificate_roundtrip_witness :
    Certificate.from_pem toyLib [5] = Except.ok (Certificate.mk 5) ∧
    Certificate.from_der toyLib [7, 0] = Except.ok (Certificate.mk 7) :=
  ⟨(C6_certificate_roundtrip toyLib toyLib_pem_roundtrip
      toyLib_der_roundtrip [5] [7, 0] (Certificate.mk 5)
      (Certificate.mk 7)).1 rfl [5] rfl,
   (C6_certificate_roundtrip toyLib toyLib_pem_roundtrip
      toyLib_der_roundtrip [5] [7, 0] (Certificate.mk 5)
      (Certificate.mk 7)).2 rfl [7, 0] rfl⟩

/-- Claim C8: to_pem and to_der only repackage the library serializers,
so whenever those serializers are total, both succeed with the
serialized bytes on every Certificate validly constructed by from_pem,
from_der or from_bytes, and never return an error. -/
theorem C8_serialization_succeeds (lib : X509Lib α κ)
    (htp : ∀ x, ∃ b, lib.to_pem x = Except.ok b)
    (htd : ∀ x, ∃ b, lib.to_der x = Except.ok b)
    (c : Certificate α)
    (_hc : (∃ bytes, Certificate.from_pem lib bytes = Except.ok c) ∨
      (∃ bytes, Certificate.from_der lib bytes = Except.ok c) ∨
      (∃ bytes, Certificate.from_bytes lib bytes = some (Except.ok c))) :
    (∃ pb, Certificate.to_pem lib c = Except.ok pb) ∧
    (∃ db, Certificate.to_der lib c = Except.ok db) := by
  obtain ⟨pb, hpb⟩ := htp c.x509
  obtain ⟨db, hdb⟩ := htd c.x509
  exact ⟨⟨pb, by simp [Certificate.to_pem, hpb]⟩,
    ⟨db, by simp [Certificate.to_der, hdb]⟩⟩

/-- Witness for C8 on the toy library, whose serializers are total: the
certificate constructed from the PEM buffer [5] serializes to both
encodings. -/
theorem C8_serialization_succeeds_witness :
    (∃ pb, Certificate.to_pem toyLib (Certificate.mk 5) = Except.ok pb) ∧
    (∃ db, Certificate.to_der toyLib (Certificate.mk 5) = Except.ok db) :=
  C8_serialization_succeeds toyLib (fun x => ⟨[x], rfl⟩)
    (fun x => ⟨[x, 0], rfl⟩) (Certificate.mk 5) (Or.inl ⟨[5], rfl⟩)

/-- Claim C9: verify is a pure function of the two certificates.  The
source receives both certificates through shared references, clones the
underlying X509 values, and writes to neither, so in the embedding the
result is fully determined by the underlying parsed values: any two
calls on certificates holding equal parsed values return the same
result, and the inputs, being immutable values, are unchanged by the
call. -/
theorem C9_verify_pure_deterministic (lib : X509Lib α κ)
    (a b a2 b2 : Certificate α)
    (h1 : a.x509 = a2.x509) (h2 : b.x509 = b2.x509) :
    verifyPair lib (a, b) = verifyPair lib (a2, b2) := by
  obtain ⟨x⟩ := a
  obtain ⟨y⟩ := b
  obtain ⟨x2⟩ := a2
  obtain ⟨y2⟩ := b2
  simp only at h1 h2
  subst h1
  subst h2
  rfl

/-- Witness for C9: two calls of verify on the pair (3, 4) of toy
certificates return the same result. -/
theorem C9_verify_pure_deterministic_witness :
    verifyPair toyLib (Certificate.mk 3, Certificate.mk 4) =
      verifyPair toyLib (Certificate.mk 3, Certificate.mk 4) :=
  C9_verify_pure_deterministic toyLib (Certificate.mk 3) (Certificate.mk 4)
    (Certificate.mk 3) (Certificate.mk 4) rfl rfl
